import Mathlib

/-!
Verification of the ELF ident / 32-bit header decoder.

Shallow embedding of `src/elf_ident.rs` and `src/elf_header_32.rs`.
Bytes are modelled as `Nat` (the Rust `u8` values); a buffer is a
function from offsets to byte values, and a positionable byte source
(the Rust `File`) is a list of bytes together with a cursor.
-/

namespace ElfRunner

/-- ELF ident 32-bit format. -/
def EI_CLASS_32 : Nat := 0x01

/-- ELF ident 64-bit format. -/
def EI_CLASS_64 : Nat := 0x02

/-- ELF ident little endian. -/
def EI_DATA_LITTLE : Nat := 0x01

/-- ELF ident big endian. -/
def EI_DATA_BIG : Nat := 0x02

/-- ELF ident System V OS. -/
def EI_OSABI_SYSTEM_V : Nat := 0x00

/-- ELF ident HP-UX OS. -/
def EI_OSABI_HP_UX : Nat := 0x01

/-- ELF ident NetBSD OS. -/
def EI_OSABI_NETBSD : Nat := 0x02

/-- ELF ident Linux OS. -/
def EI_OSABI_LINUX : Nat := 0x03

/-- ELF ident GNU Hurd OS. -/
def EI_OSABI_GNU_HURD : Nat := 0x04

/-- ELF ident Solaris OS (0x05 is skipped by the source). -/
def EI_OSABI_SOLARIS : Nat := 0x06

/-- ELF ident AIX OS. -/
def EI_OSABI_AIX : Nat := 0x07

/-- ELF ident IRIX OS. -/
def EI_OSABI_IRIX : Nat := 0x08

/-- ELF ident FreeBSD OS. -/
def EI_OSABI_FREEBSD : Nat := 0x09

/-- ELF ident Tru64 OS. -/
def EI_OSABI_TRU64 : Nat := 0x0a

/-- ELF ident Novell Modesto OS. -/
def EI_OSABI_NOVELL_MODESTO : Nat := 0x0b

/-- ELF ident OpenBSD OS. -/
def EI_OSABI_OPENBSD : Nat := 0x0c

/-- ELF ident OpenVMS OS. -/
def EI_OSABI_OPENVMS : Nat := 0x0d

/-- ELF ident NonStop Kernel OS. -/
def EI_OSABI_NONSTOP_KERNEL : Nat := 0x0e

/-- ELF ident AROS OS. -/
def EI_OSABI_AROS : Nat := 0x0f

/-- ELF ident Fenix OS OS. -/
def EI_OSABI_FENIX_OS : Nat := 0x10

/-- ELF ident CloudABI OS. -/
def EI_OSABI_CLOUDABI : Nat := 0x11

/-- Structure to define the ELF Ident (struct `ELFIdent` in `elf_ident.rs`).
The Rust field `_ei_padding : [u8; 7]` is modelled as a 7-element list. -/
structure ELFIdent where
  ei_mag0 : Nat
  ei_mag1 : Nat
  ei_mag2 : Nat
  ei_mag3 : Nat
  ei_class : Nat
  ei_data : Nat
  ei_version : Nat
  ei_osabi : Nat
  ei_abiversion : Nat
  ei_padding : List Nat
deriving DecidableEq

/-- Parses a 16-byte buffer into an ELFIdent (`parse_elf_ident`).
The buffer is a map from byte offset to byte value; the Rust code reads
offsets 0 through 8 and fills the padding field with `[0; 7]`. -/
def parse_elf_ident (buf : Nat → Nat) : ELFIdent :=
  { ei_mag0 := buf 0
    ei_mag1 := buf 1
    ei_mag2 := buf 2
    ei_mag3 := buf 3
    ei_class := buf 4
    ei_data := buf 5
    ei_version := buf 6
    ei_osabi := buf 7
    ei_abiversion := buf 8
    ei_padding := List.replicate 7 0 }

/-- Checks an ELFIdent (`check_elf_ident`): one big negated condition,
returning `false` when it fires and `true` otherwise, exactly as in the
source. -/
def check_elf_ident (ident : ELFIdent) : Bool :=
  if ident.ei_mag0 ≠ 0x7f ∨ ident.ei_mag1 ≠ 0x45 ∨
      ident.ei_mag2 ≠ 0x4c ∨ ident.ei_mag3 ≠ 0x46 ∨
      (ident.ei_class ≠ EI_CLASS_32 ∧ ident.ei_class ≠ EI_CLASS_64) ∨
      (ident.ei_data ≠ EI_DATA_LITTLE ∧ ident.ei_data ≠ EI_DATA_BIG) ∨
      (ident.ei_osabi ≠ EI_OSABI_SYSTEM_V ∧
      ident.ei_osabi ≠ EI_OSABI_HP_UX ∧ ident.ei_osabi ≠ EI_OSABI_NETBSD ∧
      ident.ei_osabi ≠ EI_OSABI_LINUX ∧
      ident.ei_osabi ≠ EI_OSABI_GNU_HURD ∧
      ident.ei_osabi ≠ EI_OSABI_SOLARIS ∧ ident.ei_osabi ≠ EI_OSABI_AIX ∧
      ident.ei_osabi ≠ EI_OSABI_IRIX ∧ ident.ei_osabi ≠ EI_OSABI_FREEBSD ∧
      ident.ei_osabi ≠ EI_OSABI_TRU64 ∧
      ident.ei_osabi ≠ EI_OSABI_NOVELL_MODESTO ∧
      ident.ei_osabi ≠ EI_OSABI_OPENBSD ∧
      ident.ei_osabi ≠ EI_OSABI_OPENVMS ∧
      ident.ei_osabi ≠ EI_OSABI_NONSTOP_KERNEL ∧
      ident.ei_osabi ≠ EI_OSABI_AROS ∧
      ident.ei_osabi ≠ EI_OSABI_FENIX_OS ∧
      ident.ei_osabi ≠ EI_OSABI_CLOUDABI) then
    false
  else
    true

/-- The known OS/ABI code set enumerated in `elf_ident.rs` (0x05 absent). -/
def knownOsabi : List Nat :=
  [0x00, 0x01, 0x02, 0x03, 0x04, 0x06, 0x07, 0x08, 0x09, 0x0a, 0x0b,
   0x0c, 0x0d, 0x0e, 0x0f, 0x10, 0x11]

/-- A positionable byte source: the Rust `File` handle, modelled as the
full byte content together with the read cursor. -/
structure FileSource where
  data : List Nat
  pos : Nat
deriving DecidableEq

/-- `file.seek(SeekFrom::Start(0))`: reposition to absolute offset 0.
On the model this always succeeds. -/
def seekStart (f : FileSource) : FileSource :=
  { f with pos := 0 }

/-- `file.read_exact(&mut buf)` for an `n`-byte buffer: yields exactly the
next `n` bytes and advances the cursor, or fails when fewer than `n`
bytes remain. -/
def readExact (f : FileSource) (n : Nat) : Option (List Nat × FileSource) :=
  if f.pos + n ≤ f.data.length then
    some ((f.data.drop f.pos).take n, { f with pos := f.pos + n })
  else
    none

/-- View a byte list as an offset-indexed buffer (out-of-range offsets,
never exercised by the decoders on full-length reads, give 0). -/
def byteAt (l : List Nat) : Nat → Nat :=
  fun i => l.getD i 0

/-- Reads the ELF ident from file (`read_elf_ident`): seek to offset 0,
read exactly 16 bytes, parse, validate; `none` on any failure. The
returned pair carries the file's post-read state (the Rust `&mut File`
side effect). -/
def read_elf_ident (f : FileSource) : Option (ELFIdent × FileSource) :=
  match readExact (seekStart f) 16 with
  | none => none
  | some (buf, f1) =>
    let ident := parse_elf_ident (byteAt buf)
    if check_elf_ident ident then some (ident, f1) else none

/-- Structure to define the 32-bit ELF header (struct `ELFHeader32` in
`elf_header_32.rs`). All integer fields are Rust `u16`/`u32`, modelled
as `Nat`. -/
structure ELFHeader32 where
  e_ident : ELFIdent
  e_type : Nat
  e_machine : Nat
  e_version : Nat
  e_entry : Nat
  e_phoff : Nat
  e_shoff : Nat
  e_flags : Nat
  e_shsize : Nat
  e_phentsize : Nat
  e_phnum : Nat
  e_shentsize : Nat
  e_shnum : Nat
  e_shstrndx : Nat
deriving DecidableEq

/-- Modelled from the byteorder crate: `LittleEndian::read_u16` on the
two bytes at offset `a`. -/
def read_u16_le (buf : Nat → Nat) (a : Nat) : Nat :=
  buf a + 256 * buf (a + 1)

/-- Modelled from the byteorder crate: `BigEndian::read_u16` on the two
bytes at offset `a`. -/
def read_u16_be (buf : Nat → Nat) (a : Nat) : Nat :=
  256 * buf a + buf (a + 1)

/-- Modelled from the byteorder crate: `LittleEndian::read_u32` on the
four bytes at offset `a`. -/
def read_u32_le (buf : Nat → Nat) (a : Nat) : Nat :=
  buf a + 256 * buf (a + 1) + 65536 * buf (a + 2) + 16777216 * buf (a + 3)

/-- Modelled from the byteorder crate: `BigEndian::read_u32` on the four
bytes at offset `a`. -/
def read_u32_be (buf : Nat → Nat) (a : Nat) : Nat :=
  16777216 * buf a + 65536 * buf (a + 1) + 256 * buf (a + 2) + buf (a + 3)

/-- Parses a 54-byte buffer into a 32-bit ELFHeader (`parse_elf_header`):
the first 16 bytes are delegated to `parse_elf_ident`; the ident's
`ei_data` selects little- or big-endian field decoding, and with an
unknown encoding every integer field keeps its `Default::default()`
(zero) value. -/
def parse_elf_header (buf : Nat → Nat) : ELFHeader32 :=
  let e_ident := parse_elf_ident buf
  if e_ident.ei_data = EI_DATA_LITTLE then
    { e_ident := e_ident
      e_type := read_u16_le buf 0x10
      e_machine := read_u16_le buf 0x12
      e_version := read_u32_le buf 0x14
      e_entry := read_u32_le buf 0x18
      e_phoff := read_u32_le buf 0x1c
      e_shoff := read_u32_le buf 0x20
      e_flags := read_u32_le buf 0x24
      e_shsize := read_u16_le buf 0x28
      e_phentsize := read_u16_le buf 0x2a
      e_phnum := read_u16_le buf 0x2c
      e_shentsize := read_u16_le buf 0x2e
      e_shnum := read_u16_le buf 0x30
      e_shstrndx := read_u16_le buf 0x32 }
  else if e_ident.ei_data = EI_DATA_BIG then
    { e_ident := e_ident
      e_type := read_u16_be buf 0x10
      e_machine := read_u16_be buf 0x12
      e_version := read_u32_be buf 0x14
      e_entry := read_u32_be buf 0x18
      e_phoff := read_u32_be buf 0x1c
      e_shoff := read_u32_be buf 0x20
      e_flags := read_u32_be buf 0x24
      e_shsize := read_u16_be buf 0x28
      e_phentsize := read_u16_be buf 0x2a
      e_phnum := read_u16_be buf 0x2c
      e_shentsize := read_u16_be buf 0x2e
      e_shnum := read_u16_be buf 0x30
      e_shstrndx := read_u16_be buf 0x32 }
  else
    { e_ident := e_ident
      e_type := 0
      e_machine := 0
      e_version := 0
      e_entry := 0
      e_phoff := 0
      e_shoff := 0
      e_flags := 0
      e_shsize := 0
      e_phentsize := 0
      e_phnum := 0
      e_shentsize := 0
      e_shnum := 0
      e_shstrndx := 0 }

/-- Reads the ELF header from file (`read_elf_header`): obtain and
validate the ident via `read_elf_ident`, gate on the 32-bit class, seek
back to offset 0, read exactly 54 bytes and parse; `none` on any
failure. -/
def read_elf_header (f : FileSource) : Option (ELFHeader32 × FileSource) :=
  match read_elf_ident f with
  | none => none
  | some (ident, f1) =>
    if ident.ei_class ≠ EI_CLASS_32 then none
    else
      match readExact (seekStart f1) 54 with
      | none => none
      | some (buf, f2) => some (parse_elf_header (byteAt buf), f2)

/-- One lowercase hexadecimal digit, as produced by Rust `{:02x}`. -/
def hexDigit (n : Nat) : Char :=
  if n < 10 then Char.ofNat (48 + n) else Char.ofNat (87 + n)

/-- Two-digit lowercase hexadecimal rendering of a byte (Rust `{:02x}`
applied to a `u8`). -/
def hexByte2 (n : Nat) : String :=
  String.mk [hexDigit (n / 16 % 16), hexDigit (n % 16)]

/-- The `match self.ei_class` arm of `ELFIdent`'s `Display` impl. -/
def classLabel (c : Nat) : String :=
  if c = EI_CLASS_32 then "32 bits; "
  else if c = EI_CLASS_64 then "64 bits; "
  else "unknown; "

/-- The `match self.ei_data` arm of `ELFIdent`'s `Display` impl (the
source really prints "bif endian"). -/
def dataLabel (d : Nat) : String :=
  if d = EI_DATA_LITTLE then "little endian; "
  else if d = EI_DATA_BIG then "bif endian; "
  else "unknown; "

/-- The `match self.ei_osabi` arm of `ELFIdent`'s `Display` impl. -/
def osabiLabel (o : Nat) : String :=
  if o = EI_OSABI_SYSTEM_V then "System V; "
  else if o = EI_OSABI_HP_UX then "HP-UX; "
  else if o = EI_OSABI_NETBSD then "NetBSD; "
  else if o = EI_OSABI_LINUX then "Linux; "
  else if o = EI_OSABI_GNU_HURD then "GNU Hurd; "
  else if o = EI_OSABI_SOLARIS then "Solaris; "
  else if o = EI_OSABI_AIX then "AIX; "
  else if o = EI_OSABI_IRIX then "IRIX; "
  else if o = EI_OSABI_FREEBSD then "FreeBSD; "
  else if o = EI_OSABI_TRU64 then "Tru64; "
  else if o = EI_OSABI_NOVELL_MODESTO then "Novell Modesto; "
  else if o = EI_OSABI_OPENBSD then "OpenBSD; "
  else if o = EI_OSABI_OPENVMS then "OpenVMS; "
  else if o = EI_OSABI_NONSTOP_KERNEL then "NonStop Kernel; "
  else if o = EI_OSABI_AROS then "AROS; "
  else if o = EI_OSABI_FENIX_OS then "Fenix OS; "
  else if o = EI_OSABI_CLOUDABI then "CloudABI; "
  else "unknown; "

/-- Implementation of format to show ident (`impl fmt::Display for
ELFIdent`): the rendered text, built exactly in the order of the
source's `write!` calls. -/
def ELFIdent.fmt (r : ELFIdent) : String :=
  "ei_mag: 0x" ++ hexByte2 r.ei_mag0 ++ " 0x" ++ hexByte2 r.ei_mag1 ++
    " 0x" ++ hexByte2 r.ei_mag2 ++ " 0x" ++ hexByte2 r.ei_mag3 ++ "; " ++
  "ei_class: 0x" ++ hexByte2 r.ei_class ++ " " ++ classLabel r.ei_class ++
  "ei_data: 0x" ++ hexByte2 r.ei_data ++ " " ++ dataLabel r.ei_data ++
  "ei_version: 0x" ++ hexByte2 r.ei_version ++ "; " ++
  "ei_osabi: 0x" ++ hexByte2 r.ei_osabi ++ " " ++ osabiLabel r.ei_osabi ++
  "ei_abiversion: 0x" ++ hexByte2 r.ei_abiversion

/-! ## Helper lemmas -/

/-- `parse_elf_ident` only reads offsets 0 through 8 of its buffer. -/
theorem parse_elf_ident_eq_of_agree (b1 b2 : Nat → Nat)
    (h : ∀ i, i < 9 → b1 i = b2 i) :
    parse_elf_ident b1 = parse_elf_ident b2 := by
  simp only [parse_elf_ident, ELFIdent.mk.injEq]
  exact ⟨h 0 (by omega), h 1 (by omega), h 2 (by omega), h 3 (by omega),
    h 4 (by omega), h 5 (by omega), h 6 (by omega), h 7 (by omega),
    h 8 (by omega), trivial⟩

/-- Taking a longer prefix does not change the bytes at in-range
offsets. -/
theorem byteAt_take (l : List Nat) (n i : Nat) (h : i < n) :
    byteAt (l.take n) i = byteAt l i := by
  simp only [byteAt, List.getD_eq_getElem?_getD, List.getElem?_take_of_lt h]

/-- Anatomy of a successful `read_elf_ident`: the source holds at least
16 bytes, the returned file state is the same content at cursor 16, and
the returned record is the parsed, validated prefix. -/
theorem read_elf_ident_some (f : FileSource) (i : ELFIdent) (f1 : FileSource)
    (h : read_elf_ident f = some (i, f1)) :
    16 ≤ f.data.length ∧ f1 = ⟨f.data, 16⟩ ∧
      i = parse_elf_ident (byteAt (f.data.take 16)) ∧
      check_elf_ident i = true := by
  simp only [read_elf_ident, readExact, seekStart] at h
  by_cases hlen : 0 + 16 ≤ f.data.length
  · simp only [hlen, if_pos, List.drop_zero] at h
    by_cases hc : check_elf_ident (parse_elf_ident (byteAt (f.data.take 16)))
    · simp only [hc, if_pos, Option.some.injEq, Prod.mk.injEq] at h
      obtain ⟨hi, hf⟩ := h
      refine ⟨by omega, ?_, hi.symm, hi ▸ hc⟩
      exact hf ▸ rfl
    · simp [hc] at h
  · simp [hlen] at h

/-- Anatomy of a successful `read_elf_header`: the ident read succeeded
with 32-bit class, the source holds at least 54 bytes, and the record
is the parsed 54-byte prefix. -/
theorem read_elf_header_some (f : FileSource) (hd : ELFHeader32)
    (f2 : FileSource) (h : read_elf_header f = some (hd, f2)) :
    ∃ i f1, read_elf_ident f = some (i, f1) ∧ i.ei_class = EI_CLASS_32 ∧
      54 ≤ f.data.length ∧ hd = parse_elf_header (byteAt (f.data.take 54)) := by
  simp only [read_elf_header] at h
  split at h
  · simp at h
  · rename_i i f1 heq
    obtain ⟨hlen16, hf1, hi, hchk⟩ := read_elf_ident_some f i f1 heq
    subst hf1
    split at h
    · simp at h
    · rename_i hcls
      split at h
      · simp at h
      · rename_i buf f2x heq2
        simp only [readExact, seekStart] at heq2
        by_cases hlen : 0 + 54 ≤ f.data.length
        · rw [if_pos hlen] at heq2
          simp only [List.drop_zero, Option.some.injEq, Prod.mk.injEq] at heq2
          obtain ⟨hbuf, -⟩ := heq2
          subst hbuf
          simp only [Option.some.injEq, Prod.mk.injEq] at h
          exact ⟨i, ⟨f.data, 16⟩, heq, not_not.mp hcls, by omega, h.1.symm⟩
        · rw [if_neg hlen] at heq2
          simp at heq2

/-- The embedded ident of a parsed header is the parse of the same
buffer, in every encoding branch. -/
theorem parse_elf_header_e_ident (buf : Nat → Nat) :
    (parse_elf_header buf).e_ident = parse_elf_ident buf := by
  simp only [parse_elf_header]
  split
  · rfl
  · split <;> rfl

/-- The transformation named by the endianness claim: set the
data-encoding byte (offset 0x05) to big-endian and reverse the bytes of
every multi-byte integer field in 0x10..0x34; all other offsets are
unchanged. -/
def swapHeaderBytes (b : Nat → Nat) : Nat → Nat := fun i =>
  if i = 0x05 then EI_DATA_BIG
  else if i = 0x10 then b 0x11 else if i = 0x11 then b 0x10
  else if i = 0x12 then b 0x13 else if i = 0x13 then b 0x12
  else if i = 0x14 then b 0x17 else if i = 0x15 then b 0x16
  else if i = 0x16 then b 0x15 else if i = 0x17 then b 0x14
  else if i = 0x18 then b 0x1b else if i = 0x19 then b 0x1a
  else if i = 0x1a then b 0x19 else if i = 0x1b then b 0x18
  else if i = 0x1c then b 0x1f else if i = 0x1d then b 0x1e
  else if i = 0x1e then b 0x1d else if i = 0x1f then b 0x1c
  else if i = 0x20 then b 0x23 else if i = 0x21 then b 0x22
  else if i = 0x22 then b 0x21 else if i = 0x23 then b 0x20
  else if i = 0x24 then b 0x27 else if i = 0x25 then b 0x26
  else if i = 0x26 then b 0x25 else if i = 0x27 then b 0x24
  else if i = 0x28 then b 0x29 else if i = 0x29 then b 0x28
  else if i = 0x2a then b 0x2b else if i = 0x2b then b 0x2a
  else if i = 0x2c then b 0x2d else if i = 0x2d then b 0x2c
  else if i = 0x2e then b 0x2f else if i = 0x2f then b 0x2e
  else if i = 0x30 then b 0x31 else if i = 0x31 then b 0x30
  else if i = 0x32 then b 0x33 else if i = 0x33 then b 0x32
  else b i

/-- A 16-byte source holding a valid ident that declares the 64-bit
class. -/
def ident64Bytes : List Nat :=
  [0x7f, 0x45, 0x4c, 0x46, 0x02, 0x01, 0x01, 0x00, 0x00,
   0, 0, 0, 0, 0, 0, 0]

/-- The 64-bit-class source, with a nonzero starting cursor. -/
def src64 : FileSource := ⟨ident64Bytes, 5⟩

/-- A 16-byte source whose first magic byte is corrupted to 0x7e. -/
def srcBadMagic : FileSource :=
  ⟨[0x7e, 0x45, 0x4c, 0x46, 0x01, 0x01, 0x01, 0, 0, 0, 0, 0, 0, 0, 0, 0], 0⟩

/-- A source holding a single byte: every read is short. -/
def srcShort : FileSource := ⟨[0x7f], 0⟩

/-- A full 54-byte little-endian 32-bit ELF prefix. -/
def bytes32LE : List Nat :=
  [0x7f, 0x45, 0x4c, 0x46, 0x01, 0x01, 0x01, 0x00, 0x00,
   0, 0, 0, 0, 0, 0, 0,
   0x02, 0x00,
   0x28, 0x00,
   0x01, 0x00, 0x00, 0x00,
   0x54, 0x80, 0x04, 0x08,
   0x34, 0x00, 0x00, 0x00,
   0x90, 0x01, 0x00, 0x00,
   0x00, 0x00, 0x00, 0x00,
   0x34, 0x00,
   0x20, 0x00,
   0x02, 0x00,
   0x28, 0x00,
   0x05, 0x00,
   0x04, 0x00,
   0x00, 0x00]

/-- The 32-bit little-endian source, with a nonzero starting cursor. -/
def src32 : FileSource := ⟨bytes32LE, 9⟩

/-! ## Claims -/

/-- C4 counterexample: the three failure kinds — unsupported class
(`src64`), structural invalidity (`srcBadMagic`) and short read
(`srcShort`) — all come back as the very same value `none`, so the
caller cannot distinguish them. -/
theorem c4_failure_kinds_collapse_counterexample :
    read_elf_header src64 = none ∧
    read_elf_header srcBadMagic = none ∧
    read_elf_header srcShort = none ∧
    read_elf_header src64 = read_elf_header srcBadMagic ∧
    read_elf_header srcBadMagic = read_elf_header srcShort ∧
    read_elf_ident srcBadMagic = read_elf_ident srcShort := by
  decide

/-- C4 (amended): every failure path of `read_elf_ident` and
`read_elf_header` — short read, validation mismatch, unsupported class —
returns the typed absence-of-value `none`; the kinds are not
distinguishable by the caller. -/
theorem c4_all_failures_return_none :
    (∀ f : FileSource, f.data.length < 16 → read_elf_ident f = none) ∧
    (∀ f : FileSource, f.data.length < 54 → read_elf_header f = none) ∧
    (∀ f : FileSource, read_elf_ident f = none → read_elf_header f = none) ∧
    (∀ (f : FileSource) (i : ELFIdent) (f1 : FileSource),
        read_elf_ident f = some (i, f1) → i.ei_class ≠ EI_CLASS_32 →
          read_elf_header f = none) := by
  refine ⟨fun f h => ?_, fun f h => ?_, fun f h => ?_, fun f i f1 h hc => ?_⟩
  · simp only [read_elf_ident, readExact, seekStart]
    rw [if_neg (by omega)]
  · cases hh : read_elf_header f with
    | none => rfl
    | some v =>
      obtain ⟨hd, f2⟩ := v
      obtain ⟨-, -, -, -, hlen, -⟩ := read_elf_header_some f hd f2 hh
      omega
  · simp [read_elf_header, h]
  · simp [read_elf_header, h, hc]

/-- Witness for C4's amended statement on the three concrete failing
sources. -/
theorem c4_all_failures_return_none_witness :
    read_elf_ident srcShort = none ∧
    read_elf_header srcShort = none ∧
    read_elf_header srcBadMagic = none ∧
    read_elf_header src64 = none :=
  ⟨c4_all_failures_return_none.1 srcShort (by decide),
   c4_all_failures_return_none.2.1 srcShort (by decide),
   c4_all_failures_return_none.2.2.1 srcBadMagic (by decide),
   c4_all_failures_return_none.2.2.2 src64
     (parse_elf_ident (byteAt (ident64Bytes.take 16))) ⟨ident64Bytes, 16⟩
     (by decide) (by decide)⟩

/-- C6: a record that fails validation is never returned: a successful
`read_elf_ident` yields a record passing `check_elf_ident`, and a
successful `read_elf_header` yields a header whose embedded ident
passes validation and has the 32-bit class. -/
theorem c6_returned_records_validated :
    (∀ (f : FileSource) (i : ELFIdent) (f1 : FileSource),
        read_elf_ident f = some (i, f1) → check_elf_ident i = true) ∧
    (∀ (f : FileSource) (hd : ELFHeader32) (f2 : FileSource),
        read_elf_header f = some (hd, f2) →
          check_elf_ident hd.e_ident = true ∧
          hd.e_ident.ei_class = EI_CLASS_32) := by
  constructor
  · intro f i f1 h
    exact (read_elf_ident_some f i f1 h).2.2.2
  · intro f hd f2 h
    obtain ⟨i, f1, hident, hcls, hlen, hhd⟩ := read_elf_header_some f hd f2 h
    obtain ⟨hlen16, hf1, hi, hchk⟩ := read_elf_ident_some f i f1 hident
    have hident_eq : (parse_elf_header (byteAt (f.data.take 54))).e_ident =
        parse_elf_ident (byteAt (f.data.take 16)) := by
      rw [parse_elf_header_e_ident]
      apply parse_elf_ident_eq_of_agree
      intro j hj
      rw [byteAt_take _ _ _ (by omega), byteAt_take _ _ _ (by omega)]
    rw [hhd, hident_eq, ← hi]
    exact ⟨hchk, hcls⟩

/-- Witness for C6 on the concrete 32-bit little-endian source. -/
theorem c6_returned_records_validated_witness :
    check_elf_ident (parse_elf_ident (byteAt (bytes32LE.take 16))) = true ∧
    (check_elf_ident
        (parse_elf_header (byteAt (bytes32LE.take 54))).e_ident = true ∧
      (parse_elf_header (byteAt (bytes32LE.take 54))).e_ident.ei_class =
        EI_CLASS_32) :=
  ⟨c6_returned_records_validated.1 src32
      (parse_elf_ident (byteAt (bytes32LE.take 16))) ⟨bytes32LE, 16⟩
      (by decide),
   c6_returned_records_validated.2 src32
      (parse_elf_header (byteAt (bytes32LE.take 54))) ⟨bytes32LE, 54⟩
      (by decide)⟩

/-- C7: over any source whose ident block reads back valid with the
64-bit class byte, `read_elf_header` fails, whatever the remaining
bytes hold. -/
theorem c7_class64_read_header_fails :
    ∀ (f : FileSource) (i : ELFIdent) (f1 : FileSource),
      read_elf_ident f = some (i, f1) → i.ei_class = EI_CLASS_64 →
        read_elf_header f = none := by
  intro f i f1 h hc
  simp [read_elf_header, h, hc, EI_CLASS_64, EI_CLASS_32]

/-- Witness for C7 on the concrete valid 64-bit-class source. -/
theorem c7_class64_read_header_fails_witness :
    read_elf_header src64 = none :=
  c7_class64_read_header_fails src64
    (parse_elf_ident (byteAt (ident64Bytes.take 16))) ⟨ident64Bytes, 16⟩
    (by decide) (by decide)

/-- C2: for a buffer with little-endian encoding byte, parsing the
byte-swapped big-endian equivalent yields a header whose thirteen
integer fields all numerically agree with those parsed from the
original buffer (only the embedded ident differs, in its encoding
byte). -/
theorem c2_endian_swap_same_fields :
    ∀ b : Nat → Nat, b 5 = EI_DATA_LITTLE →
      parse_elf_header (swapHeaderBytes b) =
        { parse_elf_header b with
            e_ident := parse_elf_ident (swapHeaderBytes b) } := by
  intro b h
  have hs : swapHeaderBytes b 5 = EI_DATA_BIG := by norm_num [swapHeaderBytes]
  simp only [parse_elf_header, parse_elf_ident, hs, h, EI_DATA_LITTLE,
    EI_DATA_BIG, read_u16_le, read_u16_be, read_u32_le, read_u32_be]
  norm_num [ELFHeader32.mk.injEq, swapHeaderBytes]
  omega

/-- Witness for C2 on the concrete little-endian 54-byte buffer. -/
theorem c2_endian_swap_same_fields_witness :
    parse_elf_header (swapHeaderBytes (byteAt bytes32LE)) =
      { parse_elf_header (byteAt bytes32LE) with
          e_ident := parse_elf_ident (swapHeaderBytes (byteAt bytes32LE)) } :=
  c2_endian_swap_same_fields (byteAt bytes32LE) (by decide)

/-- C9: both read operations perform an absolute seek to offset 0
first, so their result is the same from any two starting cursor
positions over the same byte content. -/
theorem c9_reads_cursor_independent :
    ∀ (data : List Nat) (p q : Nat),
      read_elf_ident ⟨data, p⟩ = read_elf_ident ⟨data, q⟩ ∧
      read_elf_header ⟨data, p⟩ = read_elf_header ⟨data, q⟩ :=
  fun _ _ _ => ⟨rfl, rfl⟩

/-- C1: `check_elf_ident` returns true iff the four magic bytes are
0x7f 0x45 0x4c 0x46, the class byte is 0x01 or 0x02, the data-encoding
byte is 0x01 or 0x02, and the OS/ABI byte lies in the known set
\x7b0x00..0x04, 0x06..0x11\x7d; the version byte, ABI-version byte and
padding bytes have no effect on the result. -/
theorem c1_check_elf_ident_characterization :
    (∀ i : ELFIdent, check_elf_ident i = true ↔
      (i.ei_mag0 = 0x7f ∧ i.ei_mag1 = 0x45 ∧ i.ei_mag2 = 0x4c ∧
       i.ei_mag3 = 0x46 ∧
       (i.ei_class = 0x01 ∨ i.ei_class = 0x02) ∧
       (i.ei_data = 0x01 ∨ i.ei_data = 0x02) ∧
       i.ei_osabi ∈ knownOsabi)) ∧
    (∀ (i : ELFIdent) (v a : Nat) (p : List Nat),
      check_elf_ident
        { i with ei_version := v, ei_abiversion := a, ei_padding := p } =
      check_elf_ident i) := by
  refine ⟨fun i => ?_, fun i v a p => rfl⟩
  simp only [check_elf_ident, EI_CLASS_32, EI_CLASS_64, EI_DATA_LITTLE,
    EI_DATA_BIG, EI_OSABI_SYSTEM_V, EI_OSABI_HP_UX, EI_OSABI_NETBSD,
    EI_OSABI_LINUX, EI_OSABI_GNU_HURD, EI_OSABI_SOLARIS, EI_OSABI_AIX,
    EI_OSABI_IRIX, EI_OSABI_FREEBSD, EI_OSABI_TRU64,
    EI_OSABI_NOVELL_MODESTO, EI_OSABI_OPENBSD, EI_OSABI_OPENVMS,
    EI_OSABI_NONSTOP_KERNEL, EI_OSABI_AROS, EI_OSABI_FENIX_OS,
    EI_OSABI_CLOUDABI, knownOsabi, List.mem_cons, List.not_mem_nil,
    or_false]
  split
  · rename_i hcond
    simp only [Bool.false_eq_true, false_iff]
    tauto
  · rename_i hcond
    simp only [true_iff]
    push_neg at hcond
    tauto

/-- C3: with a data-encoding byte that is neither 0x01 nor 0x02,
`parse_elf_header` still produces a record (no failure) and all
thirteen integer fields are zero, whatever bytes 0x10..0x34 hold. -/
theorem c3_unknown_encoding_zero_fields :
    ∀ buf : Nat → Nat, buf 5 ≠ 0x01 → buf 5 ≠ 0x02 →
      (parse_elf_header buf).e_type = 0 ∧
      (parse_elf_header buf).e_machine = 0 ∧
      (parse_elf_header buf).e_version = 0 ∧
      (parse_elf_header buf).e_entry = 0 ∧
      (parse_elf_header buf).e_phoff = 0 ∧
      (parse_elf_header buf).e_shoff = 0 ∧
      (parse_elf_header buf).e_flags = 0 ∧
      (parse_elf_header buf).e_shsize = 0 ∧
      (parse_elf_header buf).e_phentsize = 0 ∧
      (parse_elf_header buf).e_phnum = 0 ∧
      (parse_elf_header buf).e_shentsize = 0 ∧
      (parse_elf_header buf).e_shnum = 0 ∧
      (parse_elf_header buf).e_shstrndx = 0 := by
  intro buf h1 h2
  simp [parse_elf_header, parse_elf_ident, EI_DATA_LITTLE, EI_DATA_BIG,
    h1, h2]

/-- Witness for C3 at the concrete all-bytes-3 buffer. -/
theorem c3_unknown_encoding_zero_fields_witness :
    (parse_elf_header (fun _ => 3)).e_type = 0 ∧
    (parse_elf_header (fun _ => 3)).e_machine = 0 ∧
    (parse_elf_header (fun _ => 3)).e_version = 0 ∧
    (parse_elf_header (fun _ => 3)).e_entry = 0 ∧
    (parse_elf_header (fun _ => 3)).e_phoff = 0 ∧
    (parse_elf_header (fun _ => 3)).e_shoff = 0 ∧
    (parse_elf_header (fun _ => 3)).e_flags = 0 ∧
    (parse_elf_header (fun _ => 3)).e_shsize = 0 ∧
    (parse_elf_header (fun _ => 3)).e_phentsize = 0 ∧
    (parse_elf_header (fun _ => 3)).e_phnum = 0 ∧
    (parse_elf_header (fun _ => 3)).e_shentsize = 0 ∧
    (parse_elf_header (fun _ => 3)).e_shnum = 0 ∧
    (parse_elf_header (fun _ => 3)).e_shstrndx = 0 :=
  c3_unknown_encoding_zero_fields (fun _ => 3) (by decide) (by decide)

/-- C5 counterexample: a 16-byte buffer with valid ident and all padding
bytes 0x09..0x0f equal to 1 decodes to a record whose padding field is
seven zeros, not the input bytes — padding is not preserved. -/
theorem c5_padding_not_preserved_counterexample :
    (parse_elf_ident
      (byteAt [0x7f, 0x45, 0x4c, 0x46, 1, 1, 1, 0, 0,
               1, 1, 1, 1, 1, 1, 1])).ei_padding ≠ [1, 1, 1, 1, 1, 1, 1] ∧
    (parse_elf_ident
      (byteAt [0x7f, 0x45, 0x4c, 0x46, 1, 1, 1, 0, 0,
               1, 1, 1, 1, 1, 1, 1])).ei_padding = [0, 0, 0, 0, 0, 0, 0] := by
  decide

/-- C5 (amended): `parse_elf_ident` is total and structural on the nine
leading bytes — each named field equals the corresponding input byte —
while the padding field is set to seven zero bytes (it is not copied
from input bytes 0x09..0x0f). -/
theorem c5_parse_elf_ident_structural :
    ∀ buf : Nat → Nat,
      (parse_elf_ident buf).ei_mag0 = buf 0 ∧
      (parse_elf_ident buf).ei_mag1 = buf 1 ∧
      (parse_elf_ident buf).ei_mag2 = buf 2 ∧
      (parse_elf_ident buf).ei_mag3 = buf 3 ∧
      (parse_elf_ident buf).ei_class = buf 4 ∧
      (parse_elf_ident buf).ei_data = buf 5 ∧
      (parse_elf_ident buf).ei_version = buf 6 ∧
      (parse_elf_ident buf).ei_osabi = buf 7 ∧
      (parse_elf_ident buf).ei_abiversion = buf 8 ∧
      (parse_elf_ident buf).ei_padding = List.replicate 7 0 :=
  fun _ => ⟨rfl, rfl, rfl, rfl, rfl, rfl, rfl, rfl, rfl, rfl⟩

/-- C10: the decoded ident depends only on input bytes 0..8 — buffers
agreeing there decode identically — and the padding field of every
decoded record is all zeros. -/
theorem c10_parse_elf_ident_depends_on_first_nine :
    (∀ b1 b2 : Nat → Nat, (∀ i, i < 9 → b1 i = b2 i) →
      parse_elf_ident b1 = parse_elf_ident b2) ∧
    (∀ b : Nat → Nat, (parse_elf_ident b).ei_padding = List.replicate 7 0) :=
  ⟨parse_elf_ident_eq_of_agree, fun _ => rfl⟩

/-- Witness for C10: two concrete buffers differing only from offset 9
on decode to the same record. -/
theorem c10_parse_elf_ident_depends_on_first_nine_witness :
    (parse_elf_ident (fun i => if i < 9 then i else 1) =
      parse_elf_ident (fun i => if i < 9 then i else 2)) ∧
    (parse_elf_ident (fun i => if i < 9 then i else 1)).ei_padding =
      List.replicate 7 0 :=
  ⟨c10_parse_elf_ident_depends_on_first_nine.1 _ _
      (fun i hi => by simp [hi]),
    c10_parse_elf_ident_depends_on_first_nine.2 _⟩

/-- C8: rendering a decoded ident is total — the text is produced (and
nonempty) for every 16-byte input, validation failures included — and
every enumerated field whose code falls outside its known set is
rendered as its hexadecimal code followed by the literal label
"unknown". -/
theorem c8_render_total_unknown_labels :
    ∀ buf : Nat → Nat,
      0 < ((parse_elf_ident buf).fmt).length ∧
      (buf 4 ≠ 0x01 → buf 4 ≠ 0x02 →
        ∃ p q, (parse_elf_ident buf).fmt =
          p ++ ("ei_class: 0x" ++ hexByte2 (buf 4) ++ " " ++ "unknown; ") ++ q) ∧
      (buf 5 ≠ 0x01 → buf 5 ≠ 0x02 →
        ∃ p q, (parse_elf_ident buf).fmt =
          p ++ ("ei_data: 0x" ++ hexByte2 (buf 5) ++ " " ++ "unknown; ") ++ q) ∧
      (buf 7 ∉ knownOsabi →
        ∃ p q, (parse_elf_ident buf).fmt =
          p ++ ("ei_osabi: 0x" ++ hexByte2 (buf 7) ++ " " ++ "unknown; ") ++ q) := by
  intro buf
  have h10 : ("ei_mag: 0x" : String).length = 10 := rfl
  refine ⟨?_, fun h1 h2 => ?_, fun h1 h2 => ?_, fun h1 => ?_⟩
  · simp [ELFIdent.fmt, String.length_append, h10]
  · have hcl : classLabel (buf 4) = "unknown; " := by
      simp [classLabel, EI_CLASS_32, EI_CLASS_64, h1, h2]
    exact ⟨"ei_mag: 0x" ++ hexByte2 (buf 0) ++ " 0x" ++ hexByte2 (buf 1) ++
        " 0x" ++ hexByte2 (buf 2) ++ " 0x" ++ hexByte2 (buf 3) ++ "; ",
      "ei_data: 0x" ++ hexByte2 (buf 5) ++ " " ++ dataLabel (buf 5) ++
        "ei_version: 0x" ++ hexByte2 (buf 6) ++ "; " ++
        "ei_osabi: 0x" ++ hexByte2 (buf 7) ++ " " ++ osabiLabel (buf 7) ++
        "ei_abiversion: 0x" ++ hexByte2 (buf 8),
      by simp only [ELFIdent.fmt, parse_elf_ident, hcl, String.append_assoc]⟩
  · have hdl : dataLabel (buf 5) = "unknown; " := by
      simp [dataLabel, EI_DATA_LITTLE, EI_DATA_BIG, h1, h2]
    exact ⟨"ei_mag: 0x" ++ hexByte2 (buf 0) ++ " 0x" ++ hexByte2 (buf 1) ++
        " 0x" ++ hexByte2 (buf 2) ++ " 0x" ++ hexByte2 (buf 3) ++ "; " ++
        "ei_class: 0x" ++ hexByte2 (buf 4) ++ " " ++ classLabel (buf 4),
      "ei_version: 0x" ++ hexByte2 (buf 6) ++ "; " ++
        "ei_osabi: 0x" ++ hexByte2 (buf 7) ++ " " ++ osabiLabel (buf 7) ++
        "ei_abiversion: 0x" ++ hexByte2 (buf 8),
      by simp only [ELFIdent.fmt, parse_elf_ident, hdl, String.append_assoc]⟩
  · have hol : osabiLabel (buf 7) = "unknown; " := by
      simp only [knownOsabi, List.mem_cons, List.not_mem_nil, or_false,
        not_or] at h1
      simp only [osabiLabel, EI_OSABI_SYSTEM_V, EI_OSABI_HP_UX,
        EI_OSABI_NETBSD, EI_OSABI_LINUX, EI_OSABI_GNU_HURD,
        EI_OSABI_SOLARIS, EI_OSABI_AIX, EI_OSABI_IRIX, EI_OSABI_FREEBSD,
        EI_OSABI_TRU64, EI_OSABI_NOVELL_MODESTO, EI_OSABI_OPENBSD,
        EI_OSABI_OPENVMS, EI_OSABI_NONSTOP_KERNEL, EI_OSABI_AROS,
        EI_OSABI_FENIX_OS, EI_OSABI_CLOUDABI]
      rw [if_neg h1.1, if_neg h1.2.1, if_neg h1.2.2.1, if_neg h1.2.2.2.1,
        if_neg h1.2.2.2.2.1, if_neg h1.2.2.2.2.2.1,
        if_neg h1.2.2.2.2.2.2.1, if_neg h1.2.2.2.2.2.2.2.1,
        if_neg h1.2.2.2.2.2.2.2.2.1, if_neg h1.2.2.2.2.2.2.2.2.2.1,
        if_neg h1.2.2.2.2.2.2.2.2.2.2.1,
        if_neg h1.2.2.2.2.2.2.2.2.2.2.2.1,
        if_neg h1.2.2.2.2.2.2.2.2.2.2.2.2.1,
        if_neg h1.2.2.2.2.2.2.2.2.2.2.2.2.2.1,
        if_neg h1.2.2.2.2.2.2.2.2.2.2.2.2.2.2.1,
        if_neg h1.2.2.2.2.2.2.2.2.2.2.2.2.2.2.2.1,
        if_neg h1.2.2.2.2.2.2.2.2.2.2.2.2.2.2.2.2]
    exact ⟨"ei_mag: 0x" ++ hexByte2 (buf 0) ++ " 0x" ++ hexByte2 (buf 1) ++
        " 0x" ++ hexByte2 (buf 2) ++ " 0x" ++ hexByte2 (buf 3) ++ "; " ++
        "ei_class: 0x" ++ hexByte2 (buf 4) ++ " " ++ classLabel (buf 4) ++
        "ei_data: 0x" ++ hexByte2 (buf 5) ++ " " ++ dataLabel (buf 5) ++
        "ei_version: 0x" ++ hexByte2 (buf 6) ++ "; ",
      "ei_abiversion: 0x" ++ hexByte2 (buf 8),
      by simp only [ELFIdent.fmt, parse_elf_ident, hol, String.append_assoc]⟩

/-- Witness for C8 at the all-bytes-0xee buffer, whose class, encoding
and OS/ABI codes are all outside their known sets. -/
theorem c8_render_total_unknown_labels_witness :
    0 < ((parse_elf_ident (fun _ => 0xee)).fmt).length ∧
    (∃ p q, (parse_elf_ident (fun _ => 0xee)).fmt =
      p ++ ("ei_class: 0x" ++ hexByte2 0xee ++ " " ++ "unknown; ") ++ q) ∧
    (∃ p q, (parse_elf_ident (fun _ => 0xee)).fmt =
      p ++ ("ei_data: 0x" ++ hexByte2 0xee ++ " " ++ "unknown; ") ++ q) ∧
    (∃ p q, (parse_elf_ident (fun _ => 0xee)).fmt =
      p ++ ("ei_osabi: 0x" ++ hexByte2 0xee ++ " " ++ "unknown; ") ++ q) :=
  ⟨(c8_render_total_unknown_labels (fun _ => 0xee)).1,
   (c8_render_total_unknown_labels (fun _ => 0xee)).2.1 (by decide) (by decide),
   (c8_render_total_unknown_labels (fun _ => 0xee)).2.2.1 (by decide)
     (by decide),
   (c8_render_total_unknown_labels (fun _ => 0xee)).2.2.2 (by decide)⟩

end ElfRunner
